import Mathlib

/-!
Shallow embedding of the freebsd_acpi_fan driver drafts (src/acpi_fan.c and
src/acpi_fan_v4.c) and verification of the specification claims about them.

Modelling conventions:
- C `int` fields become `Int`.
- The firmware object gateway (ACPICA) is modelled by explicit parameters:
  a `Bool` for handle-in-scope checks (acpi_GetHandleInScope), a `Bool` or
  `Option` reply for each evaluation (`none` = ACPI_FAILURE).
- Every firmware evaluation a function issues is recorded in a `List FwCall`
  trace, in program order.
- Handlers that print a diagnostic on failure but take no other action are
  modelled as leaving the state unchanged on that path (ACPI_VPRINT has no
  state effect).
- Namespace `V1` embeds src/acpi_fan.c, namespace `V4` embeds
  src/acpi_fan_v4.c.
-/

namespace AcpiFan

/-- Shallow ACPI_OBJECT: the three result shapes the driver inspects
(integer, buffer, package of sub-objects). -/
inductive AcpiObj where
  | integer (n : Int)
  | buffer (bs : List Int)
  | package (elems : List AcpiObj)

/-- Source struct acpi_fan_fps: one row of the performance state table. -/
structure acpi_fan_fps where
  control : Int
  trip_point : Int
  speed : Int
  noise_level : Int
  power : Int
  deriving DecidableEq

/-- Source struct acpi_fan_fif (fan information: revision, fine grain
control, step size, low speed notification). -/
structure acpi_fan_fif where
  rev : Int
  fine_grain_ctrl : Int
  stepsize : Int
  low_fanspeed : Int
  deriving DecidableEq

/-- Source struct acpi_fan_fst (fan status: revision, control, speed). -/
structure acpi_fan_fst where
  revision : Int
  control : Int
  speed : Int
  deriving DecidableEq

/-- Firmware evaluations the driver can issue, recorded as a trace.
evalOn/evalOff are acpi_fan.c's power transitions; evalPs3/evalPs0 are
acpi_fan_v4.c's; evalFsl is the control write; evalSta the power probe;
evalFif/evalFst/evalFps the capability and status fetches. -/
inductive FwCall where
  | evalOn
  | evalOff
  | evalPs3
  | evalPs0
  | evalFsl (arg : Int)
  | evalSta
  | evalFif
  | evalFst
  | evalFps
  deriving DecidableEq

/-- Result of a sysctl handler: the softc afterwards, the firmware calls
issued, the value written out by SYSCTL_OUT if any, and the C return code. -/
structure SysctlResult (σ : Type) where
  sc : σ
  calls : List FwCall
  out : Option Int
  rc : Int
  deriving DecidableEq

/-- True exactly on an _FSL control-write evaluation. -/
def isFslCall : FwCall → Bool
  | FwCall.evalFsl _ => true
  | _ => false

namespace V1

/-- Source struct acpi_fan_softc of src/acpi_fan.c: capability flag, power
flag, fif/fps/fst records and the fps row count. -/
structure acpi_fan_softc where
  acpi4 : Int
  fan_powered : Int
  fif : acpi_fan_fif
  fps : acpi_fan_fps
  max_fps : Int
  fst : acpi_fan_fst
  deriving DecidableEq

/-- acpi_fan_get_power_state (acpi_fan.c lines 407-432): evaluates _STA and
returns the reported state; on evaluation failure the state is 2 (unknown).
`sta` is the gateway reply, `none` meaning ACPI_FAILURE. -/
def acpi_fan_get_power_state (sta : Option Int) : Int × List FwCall :=
  match sta with
  | some s => (s, [FwCall.evalSta])
  | none => (2, [FwCall.evalSta])

/-- acpi_fan_set_power (acpi_fan.c lines 436-468): new_state 1 evaluates
_ON, new_state 0 evaluates _OFF, anything else does nothing. A failed
evaluation is only logged; the function is void and never writes the
softc, so no power flag is recorded on success or failure. -/
def acpi_fan_set_power (sc : acpi_fan_softc) (new_state : Int) :
    acpi_fan_softc × List FwCall :=
  if new_state = 1 then (sc, [FwCall.evalOn])
  else if new_state = 0 then (sc, [FwCall.evalOff])
  else (sc, [])

/-- acpi_fan_get_fst (acpi_fan.c lines 498-524): the whole body is commented
out in the source; the function performs no evaluation, changes nothing and
returns 1. -/
def acpi_fan_get_fst (sc : acpi_fan_softc) :
    acpi_fan_softc × List FwCall × Bool :=
  (sc, [], true)

/-- acpi_fan_suspend (acpi_fan.c lines 265-269): the set_power(dev, 0) call
is commented out; the function does nothing and returns 0. -/
def acpi_fan_suspend (sc : acpi_fan_softc) : acpi_fan_softc × List FwCall :=
  (sc, [])

/-- acpi_fan_resume (acpi_fan.c lines 271-275): the set_power(dev, 1) call
is commented out; the function does nothing and returns 0. -/
def acpi_fan_resume (sc : acpi_fan_softc) : acpi_fan_softc × List FwCall :=
  (sc, [])

/-- acpi_fan_level_sysctl, write branch (acpi_fan.c lines 299-332).
When the recorded power flag is 0 the handler first calls
acpi_fan_set_power(dev, 1) -- an _ON evaluation -- before reading and
validating the request. Both the fine_grain branch and the level branch
then accept the request iff requested_speed <= 100 and >= 0, issuing an
_FSL write whose failure is only logged; otherwise nothing further
happens. The handler never writes the softc and always returns 0. -/
def acpi_fan_level_sysctl_write (sc : acpi_fan_softc)
    (requested_speed : Int) : SysctlResult acpi_fan_softc :=
  let p := if sc.fan_powered = 0 then acpi_fan_set_power sc 1 else (sc, [])
  if p.1.fif.fine_grain_ctrl ≠ 0 then
    if requested_speed ≤ 100 ∧ requested_speed ≥ 0 then
      ⟨p.1, p.2 ++ [FwCall.evalFsl requested_speed], none, 0⟩
    else ⟨p.1, p.2, none, 0⟩
  else
    if requested_speed ≤ 100 ∧ requested_speed ≥ 0 then
      ⟨p.1, p.2 ++ [FwCall.evalFsl requested_speed], none, 0⟩
    else ⟨p.1, p.2, none, 0⟩

/-- acpi_fan_level_sysctl, read branch (acpi_fan.c lines 334-341): calls
acpi_fan_get_fst ignoring its result and outputs the cached fst.control. -/
def acpi_fan_level_sysctl_read (sc : acpi_fan_softc) :
    SysctlResult acpi_fan_softc :=
  let g := acpi_fan_get_fst sc
  ⟨g.1, g.2.1, some g.1.fst.control, 0⟩

/-- acpi_fan_rpm_sysctl, read branch (acpi_fan.c lines 398-403): when
acpi_fan_get_fst reports success the cached fst.speed is written out,
otherwise nothing is output; the handler returns 0 either way. -/
def acpi_fan_rpm_sysctl_read (sc : acpi_fan_softc) :
    SysctlResult acpi_fan_softc :=
  let g := acpi_fan_get_fst sc
  if g.2.2 then ⟨g.1, g.2.1, some g.1.fst.speed, 0⟩
  else ⟨g.1, g.2.1, none, 0⟩

/-- acpi_fan_powered_sysctl, write branch (acpi_fan.c lines 357-376).
SYSCTL_IN stores the written value directly into sc->fan_powered; any
nonzero stored value is then coerced to 1. If the device is present the
handler probes the power state via _STA (2 meaning unknown, upon which it
returns immediately); when the probed state differs from the new flag it
calls acpi_fan_set_power with the flag. Returns 0. `devPresent` models
acpi_DeviceIsPresent and `sta` the _STA reply (`none` = failure). -/
def acpi_fan_powered_sysctl_write (devPresent : Bool) (sta : Option Int)
    (sc : acpi_fan_softc) (newval : Int) : SysctlResult acpi_fan_softc :=
  let sc1 : acpi_fan_softc := { sc with fan_powered := newval }
  let sc2 : acpi_fan_softc :=
    if sc1.fan_powered ≠ 0 then { sc1 with fan_powered := 1 } else sc1
  if devPresent then
    let g := acpi_fan_get_power_state sta
    if g.1 = 2 then ⟨sc2, g.2, none, 0⟩
    else if g.1 ≠ sc2.fan_powered then
      let p := acpi_fan_set_power sc2 sc2.fan_powered
      ⟨p.1, g.2 ++ p.2, none, 0⟩
    else ⟨sc2, g.2, none, 0⟩
  else ⟨sc2, [], none, 0⟩

end V1

namespace V4

/-- Source struct acpi_fan_softc of src/acpi_fan_v4.c. The source writes the
fif and fst members as bare `struct acpi_fan_fif;` declarations but later
accesses them as members; they are modelled as named fields. The fps table
is kept as the raw retained ACPI_OBJECT pointer (`none` = NULL). -/
structure acpi_fan_softc where
  acpi4 : Int
  fan_is_running : Int
  fif : acpi_fan_fif
  acpi_fan_fps : Option AcpiObj
  max_fps : Int
  fst : acpi_fan_fst

/-- acpi_fan_set_on (acpi_fan_v4.c lines 360-397): a nonzero new_state
evaluates _PS3 and on success sets fan_is_running to 1; a zero new_state
evaluates _PS0 and on success sets it to 0. On evaluation failure the
function logs and returns with fan_is_running unchanged; nothing is ever
returned to the caller (void). `ps3ok`/`ps0ok` model the gateway replies
to the respective evaluations. -/
def acpi_fan_set_on (ps3ok ps0ok : Bool) (sc : acpi_fan_softc)
    (new_state : Int) : acpi_fan_softc × List FwCall :=
  if new_state ≠ 0 then
    if ps3ok then ({ sc with fan_is_running := 1 }, [FwCall.evalPs3])
    else (sc, [FwCall.evalPs3])
  else
    if ps0ok then ({ sc with fan_is_running := 0 }, [FwCall.evalPs0])
    else (sc, [FwCall.evalPs0])

/-- acpi_fan_suspend (acpi_fan_v4.c lines 226-230): acpi_fan_set_on(dev, 0). -/
def acpi_fan_suspend (ps3ok ps0ok : Bool) (sc : acpi_fan_softc) :
    acpi_fan_softc × List FwCall :=
  acpi_fan_set_on ps3ok ps0ok sc 0

/-- acpi_fan_resume (acpi_fan_v4.c lines 232-236): acpi_fan_set_on(dev, 1). -/
def acpi_fan_resume (ps3ok ps0ok : Bool) (sc : acpi_fan_softc) :
    acpi_fan_softc × List FwCall :=
  acpi_fan_set_on ps3ok ps0ok sc 1

/-- acpi_fan_get_fif (acpi_fan_v4.c lines 399-424): returns 0 when the _FIF
handle is absent or the evaluation fails. On success the source's
memcpy(fif_buffer, &sc->acpi_fan_fif, ...) has the local reply buffer as
DESTINATION and the softc as SOURCE, so the softc is never written; the
reply is discarded and the function returns 1. -/
def acpi_fan_get_fif (hasFif : Bool) (reply : Option AcpiObj)
    (sc : acpi_fan_softc) : acpi_fan_softc × List FwCall × Bool :=
  if hasFif = false then (sc, [], false)
  else
    match reply with
    | none => (sc, [FwCall.evalFif], false)
    | some _ => (sc, [FwCall.evalFif], true)

/-- acpi_fan_get_fst (acpi_fan_v4.c lines 427-452): returns 0 when the _FST
handle is absent or the evaluation fails. On success the source's
memcpy(fst_buffer, &sc->acpi_fan_fst, sizeof(*fst_buffer)) again has the
local reply buffer as DESTINATION and the cached struct as SOURCE, so the
cached fst is never replaced and the reply is never decoded or shape
checked; the function returns 1. -/
def acpi_fan_get_fst (hasFst : Bool) (reply : Option AcpiObj)
    (sc : acpi_fan_softc) : acpi_fan_softc × List FwCall × Bool :=
  if hasFst = false then (sc, [], false)
  else
    match reply with
    | none => (sc, [FwCall.evalFst], false)
    | some _ => (sc, [FwCall.evalFst], true)

/-- acpi_fan_get_fps (acpi_fan_v4.c lines 454-489): checks the handle,
evaluates the performance-state object (the source names "_FST" here, a
slip for "_FPS"; structurally this is the fps fetch), and rejects a reply
that is missing/NULL, not a package, or a package of fewer than 2
elements, returning 0 with the softc untouched. On success it stores
count - 1 in max_fps and retains the package object in acpi_fan_fps. -/
def acpi_fan_get_fps (hasHandle : Bool) (reply : Option AcpiObj)
    (sc : acpi_fan_softc) : acpi_fan_softc × List FwCall × Bool :=
  if hasHandle = false then (sc, [], false)
  else
    match reply with
    | none => (sc, [FwCall.evalFps], false)
    | some obj =>
      match obj with
      | AcpiObj.package elems =>
        if elems.length < 2 then (sc, [FwCall.evalFps], false)
        else ({ sc with
                  max_fps := (elems.length : Int) - 1
                  acpi_fan_fps := some (AcpiObj.package elems) },
              [FwCall.evalFps], true)
      | _ => (sc, [FwCall.evalFps], false)

/-- Firmware environment probed by acpi_fan_attach: handle presence and
evaluation replies for _FIF, _FST and _FPS, and presence of _FSL. -/
structure AttachEnv where
  hasFif : Bool
  fifReply : Option AcpiObj
  hasFstHandle : Bool
  fstReply : Option AcpiObj
  hasFpsHandle : Bool
  fpsReply : Option AcpiObj
  hasFsl : Bool

/-- acpi_fan_attach (acpi_fan_v4.c lines 152-216), capability decision:
acpi4 becomes 1 iff acpi_fan_get_fif, acpi_fan_get_fst and acpi_fan_get_fps
all succeed and an _FSL handle is in scope (the && chain short-circuits,
so a failing step prevents the later fetches); otherwise acpi4 = 0 and the
legacy Fan_on endpoint is registered. fan_is_running is then set to 1
unconditionally. Sysctl registration itself is out of scope. -/
def acpi_fan_attach (env : AttachEnv) (sc : acpi_fan_softc) :
    acpi_fan_softc × List FwCall :=
  let g1 := acpi_fan_get_fif env.hasFif env.fifReply sc
  if g1.2.2 then
    let g2 := acpi_fan_get_fst env.hasFstHandle env.fstReply g1.1
    if g2.2.2 then
      let g3 := acpi_fan_get_fps env.hasFpsHandle env.fpsReply g2.1
      if g3.2.2 then
        if env.hasFsl then
          ({ g3.1 with acpi4 := 1, fan_is_running := 1 },
           g1.2.1 ++ g2.2.1 ++ g3.2.1)
        else
          ({ g3.1 with acpi4 := 0, fan_is_running := 1 },
           g1.2.1 ++ g2.2.1 ++ g3.2.1)
      else
        ({ g3.1 with acpi4 := 0, fan_is_running := 1 },
         g1.2.1 ++ g2.2.1 ++ g3.2.1)
    else ({ g2.1 with acpi4 := 0, fan_is_running := 1 }, g1.2.1 ++ g2.2.1)
  else ({ g1.1 with acpi4 := 0, fan_is_running := 1 }, g1.2.1)

/-- acpi_fan_level_sysctl, write branch (acpi_fan_v4.c lines 257-288):
when fan_is_running is 0 the handler first calls acpi_fan_set_on(dev, 1).
The fine_grain branch accepts iff requested_speed <= 100 and >= 0; the
level branch accepts iff requested_speed is nonzero (validation against
the fps table is left as an XXX in the source). An accepted request issues
an _FSL evaluation whose failure is only logged. The handler never writes
the cached fst and always returns 0. -/
def acpi_fan_level_sysctl_write (ps3ok ps0ok : Bool) (sc : acpi_fan_softc)
    (requested_speed : Int) : SysctlResult acpi_fan_softc :=
  let p := if sc.fan_is_running = 0 then acpi_fan_set_on ps3ok ps0ok sc 1
           else (sc, [])
  if p.1.fif.fine_grain_ctrl ≠ 0 then
    if requested_speed ≤ 100 ∧ requested_speed ≥ 0 then
      ⟨p.1, p.2 ++ [FwCall.evalFsl requested_speed], none, 0⟩
    else ⟨p.1, p.2, none, 0⟩
  else
    if requested_speed ≠ 0 then
      ⟨p.1, p.2 ++ [FwCall.evalFsl requested_speed], none, 0⟩
    else ⟨p.1, p.2, none, 0⟩

/-- acpi_fan_level_sysctl, read branch (acpi_fan_v4.c lines 290-293): calls
acpi_fan_get_fst ignoring its result and outputs the cached fst control. -/
def acpi_fan_level_sysctl_read (hasFst : Bool) (reply : Option AcpiObj)
    (sc : acpi_fan_softc) : SysctlResult acpi_fan_softc :=
  let g := acpi_fan_get_fst hasFst reply sc
  ⟨g.1, g.2.1, some g.1.fst.control, 0⟩

/-- acpi_fan_rpm_sysctl, read branch (acpi_fan_v4.c lines 352-357): when
acpi_fan_get_fst reports success the cached fst.speed is written out,
otherwise nothing is output; the handler returns 0 either way. -/
def acpi_fan_rpm_sysctl_read (hasFst : Bool) (reply : Option AcpiObj)
    (sc : acpi_fan_softc) : SysctlResult acpi_fan_softc :=
  let g := acpi_fan_get_fst hasFst reply sc
  if g.2.2 then ⟨g.1, g.2.1, some g.1.fst.speed, 0⟩
  else ⟨g.1, g.2.1, none, 0⟩

/-- acpi_fan_on_sysctl, write branch (acpi_fan_v4.c lines 318-325): calls
acpi_fan_set_on only for written values 1 and 0; any other value causes no
transition and no state change (the source comment says "else error" but
nothing is done) and the handler returns 0. -/
def acpi_fan_on_sysctl_write (ps3ok ps0ok : Bool) (sc : acpi_fan_softc)
    (fan_new : Int) : SysctlResult acpi_fan_softc :=
  if fan_new = 1 ∨ fan_new = 0 then
    let p := acpi_fan_set_on ps3ok ps0ok sc fan_new
    ⟨p.1, p.2, none, 0⟩
  else ⟨sc, [], none, 0⟩

end V4

/-- Modelled from the spec (sections 3 and 4.2): the DiscreteLevelControl
domain, i.e. the list of control_value fields of the usable entries of a
PerformanceTable reply -- every entry after the reserved index-0 revision
marker, reading each entry's first package element as its control_value.
The source never computes this; the definition exists only to compare the
claimed domain with the source's actual acceptance check. -/
def specLevelDomain : AcpiObj → List Int
  | AcpiObj.package elems =>
    (elems.drop 1).filterMap fun e =>
      match e with
      | AcpiObj.package es =>
        match es with
        | AcpiObj.integer c :: _ => some c
        | _ => none
      | _ => none
  | _ => []

/-- A present evaluation reply rejected by the source's fps shape check
(acpi_fan_v4.c line 475): NULL, not a package, or a package of fewer than
2 elements. -/
def fpsReplyMalformed : Option AcpiObj → Bool
  | none => false
  | some (AcpiObj.package elems) => decide (elems.length < 2)
  | some _ => true

/-- Concrete 3-entry performance table: revision marker, then entries with
control values 50 and 100 (the scenario of spec section 8). -/
def exampleFpsTable : AcpiObj :=
  AcpiObj.package
    [AcpiObj.integer 0,
     AcpiObj.package [AcpiObj.integer 50, AcpiObj.integer 0,
       AcpiObj.integer 3000, AcpiObj.integer 0, AcpiObj.integer 0],
     AcpiObj.package [AcpiObj.integer 100, AcpiObj.integer 0,
       AcpiObj.integer 6000, AcpiObj.integer 0, AcpiObj.integer 0]]

/-- Concrete v4 softc in discrete-level mode (fine_grain_ctrl = 0) holding
exampleFpsTable, powered, with cached level 50. -/
def scLevelV4 : V4.acpi_fan_softc :=
  { acpi4 := 1, fan_is_running := 1, fif := ⟨0, 0, 1, 0⟩,
    acpi_fan_fps := some exampleFpsTable, max_fps := 2,
    fst := ⟨0, 50, 3000⟩ }

/-- Concrete acpi_fan.c softc in level mode (fine_grain_ctrl = 0), powered,
with zeroed caches. -/
def scLevelV1 : V1.acpi_fan_softc :=
  { acpi4 := 1, fan_powered := 1, fif := ⟨0, 0, 1, 0⟩,
    fps := ⟨0, 0, 0, 0, 0⟩, max_fps := 0, fst := ⟨0, 0, 0⟩ }

/-- Concrete acpi_fan.c softc in percentage mode (fine_grain_ctrl = 1) with
the power flag 0 (recorded off) and zeroed caches. -/
def scPctOffV1 : V1.acpi_fan_softc :=
  { acpi4 := 1, fan_powered := 0, fif := ⟨0, 1, 1, 0⟩,
    fps := ⟨0, 0, 0, 0, 0⟩, max_fps := 0, fst := ⟨0, 0, 0⟩ }

/-- Concrete acpi_fan.c softc in percentage mode (fine_grain_ctrl = 1),
powered, with zeroed caches. -/
def scPctOnV1 : V1.acpi_fan_softc :=
  { acpi4 := 1, fan_powered := 1, fif := ⟨0, 1, 1, 0⟩,
    fps := ⟨0, 0, 0, 0, 0⟩, max_fps := 0, fst := ⟨0, 0, 0⟩ }

/-- Concrete legacy acpi_fan.c softc, recorded off. -/
def scLegacyV1 : V1.acpi_fan_softc :=
  { acpi4 := 0, fan_powered := 0, fif := ⟨0, 0, 1, 0⟩,
    fps := ⟨0, 0, 0, 0, 0⟩, max_fps := 0, fst := ⟨0, 0, 0⟩ }

/-- Concrete v4 softc, powered, zeroed caches, no table. -/
def scPlainV4 : V4.acpi_fan_softc :=
  { acpi4 := 0, fan_is_running := 1, fif := ⟨0, 0, 1, 0⟩,
    acpi_fan_fps := none, max_fps := 0, fst := ⟨0, 0, 0⟩ }

/-- Fresh v4 softc as zeroed at attach. -/
def scFreshV4 : V4.acpi_fan_softc :=
  { acpi4 := 0, fan_is_running := 0, fif := ⟨0, 0, 0, 0⟩,
    acpi_fan_fps := none, max_fps := 0, fst := ⟨0, 0, 0⟩ }

/-- Attach environment whose fif and fst evaluations succeed but whose fps
reply is a 1-element package (malformed: below the minimum length 2). -/
def envShortFps : V4.AttachEnv :=
  { hasFif := true, fifReply := some (AcpiObj.buffer [0, 0, 1, 0]),
    hasFstHandle := true, fstReply := some (AcpiObj.buffer [0, 0, 0]),
    hasFpsHandle := true, fpsReply := some (AcpiObj.package [AcpiObj.integer 0]),
    hasFsl := true }

/-- Helper: v4 acpi_fan_get_fif never changes the softc (its memcpy writes
the dead local buffer). -/
theorem get_fif_state (h : Bool) (r : Option AcpiObj) (sc : V4.acpi_fan_softc) :
    (V4.acpi_fan_get_fif h r sc).1 = sc := by
  cases h <;> cases r <;> simp [V4.acpi_fan_get_fif]

/-- Helper: v4 acpi_fan_get_fst never changes the softc. -/
theorem get_fst_state (h : Bool) (r : Option AcpiObj) (sc : V4.acpi_fan_softc) :
    (V4.acpi_fan_get_fst h r sc).1 = sc := by
  cases h <;> cases r <;> simp [V4.acpi_fan_get_fst]

/-- Helper: on a malformed fps reply, v4 acpi_fan_get_fps fails and leaves
the softc untouched. -/
theorem get_fps_malformed_state (h : Bool) (r : Option AcpiObj)
    (sc : V4.acpi_fan_softc) (hm : fpsReplyMalformed r = true) :
    (V4.acpi_fan_get_fps h r sc).1 = sc ∧
    (V4.acpi_fan_get_fps h r sc).2.2 = false := by
  cases h
  · simp [V4.acpi_fan_get_fps]
  · cases r with
    | none => simp [fpsReplyMalformed] at hm
    | some obj =>
      cases obj with
      | integer n => simp [V4.acpi_fan_get_fps]
      | buffer bs => simp [V4.acpi_fan_get_fps]
      | package elems =>
        have hlen : elems.length < 2 := by
          simpa [fpsReplyMalformed] using hm
        simp [V4.acpi_fan_get_fps, hlen]

/-- Claim C1, counterexample: against the 3-entry table with control values
50 and 100, a level-mode (fine_grain_ctrl = 0) write of 75 is accepted by
the v4 handler -- it issues the _FSL firmware write -- although 75 is not
the control_value of any usable table entry, refuting the claimed
accept-iff-table-membership domain. -/
theorem C1_counterexample :
    (75 : Int) ∉ specLevelDomain exampleFpsTable ∧
    FwCall.evalFsl 75 ∈
      (V4.acpi_fan_level_sysctl_write true true scLevelV4 75).calls := by
  decide

/-- Claim C1, amended: on a powered device in level mode (fine_grain_ctrl
= 0), the acpi_fan.c handler accepts a requested level iff it lies in
[0, 100] and the acpi_fan_v4.c handler accepts iff it is nonzero; the
PerformanceTable is never consulted, and a rejected request issues no
_FSL write while the handler still returns 0. -/
theorem C1_level_accept (sc1 : V1.acpi_fan_softc) (sc4 : V4.acpi_fan_softc)
    (req : Int) (h1 : sc1.fif.fine_grain_ctrl = 0)
    (h4 : sc4.fif.fine_grain_ctrl = 0)
    (hp1 : sc1.fan_powered ≠ 0) (hp4 : sc4.fan_is_running ≠ 0) :
    (FwCall.evalFsl req ∈ (V1.acpi_fan_level_sysctl_write sc1 req).calls ↔
      req ≤ 100 ∧ req ≥ 0) ∧
    (FwCall.evalFsl req ∈
        (V4.acpi_fan_level_sysctl_write true true sc4 req).calls ↔
      req ≠ 0) ∧
    (V1.acpi_fan_level_sysctl_write sc1 req).rc = 0 ∧
    (V4.acpi_fan_level_sysctl_write true true sc4 req).rc = 0 := by
  refine ⟨?_, ?_, ?_, ?_⟩
  · by_cases hr : req ≤ 100 ∧ req ≥ 0 <;>
      simp [V1.acpi_fan_level_sysctl_write, hp1, h1, hr]
  · by_cases hz : req = 0 <;>
      simp [V4.acpi_fan_level_sysctl_write, hp4, h4, hz]
  · by_cases hr : req ≤ 100 ∧ req ≥ 0 <;>
      simp [V1.acpi_fan_level_sysctl_write, hp1, h1, hr]
  · by_cases hz : req = 0 <;>
      simp [V4.acpi_fan_level_sysctl_write, hp4, h4, hz]

/-- Claim C1, witness for the amended theorem at request 5 on the concrete
level-mode contexts. -/
theorem C1_level_accept_witness :
    (FwCall.evalFsl 5 ∈ (V1.acpi_fan_level_sysctl_write scLevelV1 5).calls ↔
      (5 : Int) ≤ 100 ∧ (5 : Int) ≥ 0) ∧
    (FwCall.evalFsl 5 ∈
        (V4.acpi_fan_level_sysctl_write true true scLevelV4 5).calls ↔
      (5 : Int) ≠ 0) ∧
    (V1.acpi_fan_level_sysctl_write scLevelV1 5).rc = 0 ∧
    (V4.acpi_fan_level_sysctl_write true true scLevelV4 5).rc = 0 :=
  C1_level_accept scLevelV1 scLevelV4 5 (by decide) (by decide)
    (by decide) (by decide)

/-- Claim C2, counterexample: in percentage mode with the power flag 0, an
out-of-range request of 150 still issues a firmware call -- the _ON
power-on evaluation precedes the range check -- and the handler reports
success (0) instead of an OutOfRange failure. -/
theorem C2_counterexample :
    (V1.acpi_fan_level_sysctl_write scPctOffV1 150).calls = [FwCall.evalOn] ∧
    (V1.acpi_fan_level_sysctl_write scPctOffV1 150).rc = 0 := by
  decide

/-- Claim C2, amended: in percentage mode the handler never modifies the
softc (so the cached FanStatus is unchanged in all cases); an out-of-range
request issues no _FSL control write (though a power-on _ON call is still
issued first when the recorded power flag is 0) and the handler returns 0
rather than an error; an in-range request issues exactly the _FSL write of
the requested value. -/
theorem C2_percentage_range (sc : V1.acpi_fan_softc) (req : Int)
    (hfg : sc.fif.fine_grain_ctrl ≠ 0) :
    (V1.acpi_fan_level_sysctl_write sc req).sc = sc ∧
    (¬(req ≤ 100 ∧ req ≥ 0) →
      ((V1.acpi_fan_level_sysctl_write sc req).calls).filter isFslCall = []) ∧
    ((req ≤ 100 ∧ req ≥ 0) →
      ((V1.acpi_fan_level_sysctl_write sc req).calls).filter isFslCall =
        [FwCall.evalFsl req]) ∧
    (V1.acpi_fan_level_sysctl_write sc req).rc = 0 := by
  by_cases hp : sc.fan_powered = 0 <;>
    by_cases hr : req ≤ 100 ∧ req ≥ 0 <;>
      simp [V1.acpi_fan_level_sysctl_write, V1.acpi_fan_set_power,
        isFslCall, hfg, hp, hr]

/-- Claim C2, witness for the amended theorem on the powered percentage-mode
context at request 150. -/
theorem C2_percentage_range_witness :
    (V1.acpi_fan_level_sysctl_write scPctOnV1 150).sc = scPctOnV1 ∧
    (¬((150 : Int) ≤ 100 ∧ (150 : Int) ≥ 0) →
      ((V1.acpi_fan_level_sysctl_write scPctOnV1 150).calls).filter
        isFslCall = []) ∧
    (((150 : Int) ≤ 100 ∧ (150 : Int) ≥ 0) →
      ((V1.acpi_fan_level_sysctl_write scPctOnV1 150).calls).filter
        isFslCall = [FwCall.evalFsl 150]) ∧
    (V1.acpi_fan_level_sysctl_write scPctOnV1 150).rc = 0 :=
  C2_percentage_range scPctOnV1 150 (by decide)

/-- Claim C3: suspend followed by resume performs only power-transition
evaluations. In acpi_fan_v4.c no _FSL level write is issued by the pair
and the cached fst is untouched, so the prior level is never reapplied
through the translator; in acpi_fan.c suspend and resume are fully
commented out and do nothing at all. -/
theorem C3_no_level_reapply (p3 p0 q3 q0 : Bool) (sc : V4.acpi_fan_softc)
    (sc1 : V1.acpi_fan_softc) :
    (((V4.acpi_fan_suspend p3 p0 sc).2 ++
        (V4.acpi_fan_resume q3 q0 (V4.acpi_fan_suspend p3 p0 sc).1).2).filter
          isFslCall = []) ∧
    (V4.acpi_fan_resume q3 q0 (V4.acpi_fan_suspend p3 p0 sc).1).1.fst =
      sc.fst ∧
    V1.acpi_fan_suspend sc1 = (sc1, []) ∧
    V1.acpi_fan_resume sc1 = (sc1, []) := by
  cases p3 <;> cases p0 <;> cases q3 <;> cases q0 <;>
    simp [V4.acpi_fan_suspend, V4.acpi_fan_resume, V4.acpi_fan_set_on,
      V1.acpi_fan_suspend, V1.acpi_fan_resume, isFslCall]

/-- Claim C4, counterexample: an off request whose _PS0 evaluation fails
issues the single evaluation but leaves the recorded flag at its previous
value 1 -- not the unknown sentinel 2 the claim requires -- and the
function returns nothing to the caller. -/
theorem C4_counterexample :
    (V4.acpi_fan_set_on true false scPlainV4 0).1.fan_is_running = 1 ∧
    (V4.acpi_fan_set_on true false scPlainV4 0).1.fan_is_running ≠ 2 ∧
    (V4.acpi_fan_set_on true false scPlainV4 0).2 = [FwCall.evalPs0] := by
  decide

/-- Claim C4, amended: each on/off request issues exactly one
power-transition evaluation; on evaluation failure the recorded flag keeps
its previous value (acpi_fan_v4.c skips the update; acpi_fan.c's set_power
never writes the softc at all) and no failure is surfaced -- both
functions are void. -/
theorem C4_one_eval_no_unknown (p3 p0 : Bool) (sc4 : V4.acpi_fan_softc)
    (sc1 : V1.acpi_fan_softc) (st : Int) (hst : st = 0 ∨ st = 1) :
    (V4.acpi_fan_set_on p3 p0 sc4 st).2.length = 1 ∧
    (V1.acpi_fan_set_power sc1 st).2.length = 1 ∧
    (st ≠ 0 → p3 = false → (V4.acpi_fan_set_on p3 p0 sc4 st).1 = sc4) ∧
    (st = 0 → p0 = false → (V4.acpi_fan_set_on p3 p0 sc4 st).1 = sc4) ∧
    (V1.acpi_fan_set_power sc1 st).1 = sc1 := by
  rcases hst with h | h <;> subst h <;> cases p3 <;> cases p0 <;>
    simp [V4.acpi_fan_set_on, V1.acpi_fan_set_power]

/-- Claim C4, witness for the amended theorem at an off request with a
failing _PS0 evaluation. -/
theorem C4_one_eval_no_unknown_witness :
    (V4.acpi_fan_set_on true false scPlainV4 0).2.length = 1 ∧
    (V1.acpi_fan_set_power scLegacyV1 0).2.length = 1 ∧
    ((0 : Int) ≠ 0 → true = false →
      (V4.acpi_fan_set_on true false scPlainV4 0).1 = scPlainV4) ∧
    ((0 : Int) = 0 → false = false →
      (V4.acpi_fan_set_on true false scPlainV4 0).1 = scPlainV4) ∧
    (V1.acpi_fan_set_power scLegacyV1 0).1 = scLegacyV1 :=
  C4_one_eval_no_unknown true false scPlainV4 scLegacyV1 0 (Or.inl rfl)

/-- Claim C5: the status refresh never replaces the cache. In acpi_fan_v4.c
acpi_fan_get_fst reports success whenever the handle exists and the
evaluation succeeds, but the source's memcpy writes the cached struct into
the dead local reply buffer (arguments reversed) and the reply is never
decoded or shape checked, so the cached fst is identical before and after;
acpi_fan.c's get_fst is fully commented out and likewise returns success
leaving the cache as-is. -/
theorem C5_cache_never_updated (reply : AcpiObj) (sc : V4.acpi_fan_softc)
    (sc1 : V1.acpi_fan_softc) :
    (V4.acpi_fan_get_fst true (some reply) sc).1 = sc ∧
    (V4.acpi_fan_get_fst true (some reply) sc).2.2 = true ∧
    V1.acpi_fan_get_fst sc1 = (sc1, [], true) := by
  simp [V4.acpi_fan_get_fst, V1.acpi_fan_get_fst]

/-- Claim C6: when the performance-table evaluation yields a malformed
reply (NULL, not a package, or a package of fewer than 2 elements), v4
attach falls back to legacy (acpi4 = 0) and, starting from a fresh softc
holding no table, retains no PerformanceTable. -/
theorem C6_malformed_fps_fallback (env : V4.AttachEnv)
    (sc : V4.acpi_fan_softc) (hsc : sc.acpi_fan_fps = none)
    (hm : fpsReplyMalformed env.fpsReply = true) :
    (V4.acpi_fan_attach env sc).1.acpi4 = 0 ∧
    (V4.acpi_fan_attach env sc).1.acpi_fan_fps = none := by
  obtain ⟨hf, fr, hsth, str, hph, pr, hsl⟩ := env
  obtain ⟨hps1, hps2⟩ := get_fps_malformed_state hph pr sc hm
  cases hf <;> cases fr <;> cases hsth <;> cases str <;>
    simp_all [V4.acpi_fan_attach, V4.acpi_fan_get_fif, V4.acpi_fan_get_fst]

/-- Claim C6, witness: attach against an environment whose fps reply is a
1-element package falls back to legacy with no retained table. -/
theorem C6_malformed_fps_fallback_witness :
    (V4.acpi_fan_attach envShortFps scFreshV4).1.acpi4 = 0 ∧
    (V4.acpi_fan_attach envShortFps scFreshV4).1.acpi_fan_fps = none :=
  C6_malformed_fps_fallback envShortFps scFreshV4 rfl rfl

/-- Claim C7, counterexample: on a legacy device recorded off whose _STA
probe reads 0, writing 2 to the powered endpoint is not rejected: the
recorded flag becomes 1 (changed from 0), a power transition (_ON) is
issued, and the handler returns 0. -/
theorem C7_counterexample :
    (V1.acpi_fan_powered_sysctl_write true (some 0) scLegacyV1 2).sc.fan_powered
      = 1 ∧
    FwCall.evalOn ∈
      (V1.acpi_fan_powered_sysctl_write true (some 0) scLegacyV1 2).calls ∧
    (V1.acpi_fan_powered_sysctl_write true (some 0) scLegacyV1 2).rc = 0 := by
  decide

/-- Claim C7, amended: acpi_fan.c's powered endpoint accepts every written
value, coercing any nonzero value to 1 -- a write of v differing from 0
behaves exactly like a write of 1, including the recorded-flag change and
any resulting power transition; only acpi_fan_v4.c's Fan_on endpoint
restricts transitions to written values 0 and 1, silently ignoring other
values with a 0 return and no state change. -/
theorem C7_power_write_coerce (dp : Bool) (sta : Option Int)
    (sc : V1.acpi_fan_softc) (v : Int) (hv : v ≠ 0)
    (p3 p0 : Bool) (sc4 : V4.acpi_fan_softc) (w : Int)
    (hw : ¬(w = 1 ∨ w = 0)) :
    V1.acpi_fan_powered_sysctl_write dp sta sc v =
      V1.acpi_fan_powered_sysctl_write dp sta sc 1 ∧
    V4.acpi_fan_on_sysctl_write p3 p0 sc4 w = ⟨sc4, [], none, 0⟩ := by
  constructor
  · simp [V1.acpi_fan_powered_sysctl_write, hv]
  · simp [V4.acpi_fan_on_sysctl_write, hw]

/-- Claim C7, witness for the amended theorem: a write of 2 to the
acpi_fan.c endpoint and a write of 5 to the v4 endpoint. -/
theorem C7_power_write_coerce_witness :
    V1.acpi_fan_powered_sysctl_write true (some 0) scLegacyV1 2 =
      V1.acpi_fan_powered_sysctl_write true (some 0) scLegacyV1 1 ∧
    V4.acpi_fan_on_sysctl_write true true scPlainV4 5 =
      ⟨scPlainV4, [], none, 0⟩ :=
  C7_power_write_coerce true (some 0) scLegacyV1 2 (by decide)
    true true scPlainV4 5 (by decide)

/-- Claim C8, counterexample: an in-range percentage write of 50 on a
powered device issues the _FSL firmware write, yet the cached control
value stays 0 -- the write path does not update the cache to the applied
value. -/
theorem C8_counterexample :
    FwCall.evalFsl 50 ∈ (V1.acpi_fan_level_sysctl_write scPctOnV1 50).calls ∧
    (V1.acpi_fan_level_sysctl_write scPctOnV1 50).sc.fst.control = 0 ∧
    (V1.acpi_fan_level_sysctl_write scPctOnV1 50).sc.fst.control ≠ 50 := by
  decide

/-- Claim C8, amended: the write path never modifies the softc -- in
particular the cached control_value is not updated on a successful write
-- and it never issues an _FST status re-query; the cache only changes
when a later read path refreshes it. -/
theorem C8_write_path_no_cache_update (sc : V1.acpi_fan_softc) (req : Int) :
    (V1.acpi_fan_level_sysctl_write sc req).sc = sc ∧
    FwCall.evalFst ∉ (V1.acpi_fan_level_sysctl_write sc req).calls := by
  by_cases hp : sc.fan_powered = 0 <;>
    by_cases hfg : sc.fif.fine_grain_ctrl ≠ 0 <;>
      by_cases hr : req ≤ 100 ∧ req ≥ 0 <;>
        simp [V1.acpi_fan_level_sysctl_write, V1.acpi_fan_set_power,
          hp, hfg, hr]

/-- Claim C9: powering on is idempotent on the device context. A second
set_power(true) call yields the same softc as one call and is a plain
repeat of the single power-on evaluation; neither acpi_fan.c's set_power
(which never writes the softc) nor acpi_fan_v4.c's set_on inspects the
current state, so there is no already-on error path. -/
theorem C9_set_power_on_idempotent (p3 p0 : Bool) (sc4 : V4.acpi_fan_softc)
    (sc1 : V1.acpi_fan_softc) :
    (V4.acpi_fan_set_on p3 p0 (V4.acpi_fan_set_on p3 p0 sc4 1).1 1).1 =
      (V4.acpi_fan_set_on p3 p0 sc4 1).1 ∧
    (V4.acpi_fan_set_on p3 p0 (V4.acpi_fan_set_on p3 p0 sc4 1).1 1).2 =
      [FwCall.evalPs3] ∧
    V1.acpi_fan_set_power (V1.acpi_fan_set_power sc1 1).1 1 =
      V1.acpi_fan_set_power sc1 1 := by
  cases p3 <;> simp [V4.acpi_fan_set_on, V1.acpi_fan_set_power]

/-- Claim C10: when the status fetch fails (no _FST handle in scope or a
failed evaluation), the v4 read handlers still return success 0: the rpm
read emits no output value at all and the level read emits the stale
previously cached control value. -/
theorem C10_read_success_on_fetch_failure (hasFst : Bool)
    (reply : Option AcpiObj) (sc : V4.acpi_fan_softc)
    (hfail : (V4.acpi_fan_get_fst hasFst reply sc).2.2 = false) :
    (V4.acpi_fan_rpm_sysctl_read hasFst reply sc).rc = 0 ∧
    (V4.acpi_fan_rpm_sysctl_read hasFst reply sc).out = none ∧
    (V4.acpi_fan_level_sysctl_read hasFst reply sc).rc = 0 ∧
    (V4.acpi_fan_level_sysctl_read hasFst reply sc).out =
      some sc.fst.control := by
  cases hasFst <;> cases reply <;>
    simp_all [V4.acpi_fan_rpm_sysctl_read, V4.acpi_fan_level_sysctl_read,
      V4.acpi_fan_get_fst]

/-- Claim C10, witness: fetch failure through a missing _FST handle on the
concrete level-mode context with cached control 50. -/
theorem C10_read_success_on_fetch_failure_witness :
    (V4.acpi_fan_rpm_sysctl_read false none scLevelV4).rc = 0 ∧
    (V4.acpi_fan_rpm_sysctl_read false none scLevelV4).out = none ∧
    (V4.acpi_fan_level_sysctl_read false none scLevelV4).rc = 0 ∧
    (V4.acpi_fan_level_sysctl_read false none scLevelV4).out =
      some scLevelV4.fst.control :=
  C10_read_success_on_fetch_failure false none scLevelV4 rfl

end AcpiFan
